import Mathlib

/-!
Shallow embedding of `src/fan_control.py` (class `FanControl`): the per-host
control state, the BMC command helpers `send_cmd`, `set_fan_control`,
`set_fan_speed`, the threshold/hysteresis decision scan of
`FanControl.execute`, and the sampling/averaging path of one loop iteration.

Conventions of the embedding:
* Temperatures are `Int` (the code compares the rounded integer average with
  configured threshold temperatures); raw sensor readings are `ℚ` and the
  Python `round` is modelled exactly (round-half-to-even) by `pyRound`.
* Speeds are `Nat` percentages.
* Each raw-command send records the args string it would pass to the
  subprocess; the environment's verdict on a send is a `CmdOutcome`
  parameter.  The Python callers of `send_cmd` discard its boolean result,
  which the embedding mirrors.
* Python exceptions that the source does not catch (`ValueError` from
  `float`, `ZeroDivisionError` from averaging zero readings, and the
  `AttributeError` raised by the `"warn"` arm of `FanControl.print`, which
  calls `log.pdwarn` — a method `Logger` does not define) are modelled with
  `Except`: an `Except.error` aborts the rest of the loop, exactly as an
  uncaught exception terminates `FanControl.execute`.
* The info- and debug-level prints of the loop dispatch to `Logger` methods
  that do exist (`pinfo`, `pdebug`); they have no effect on state or commands
  and are omitted.  The only warn-level print in `FanControl` is the fallback
  message of `execute`, modelled by `fcPrint "warn"`.
-/

/-- Per-host control state: the `state` dict of `FanControl`
(`{ "temperature": -1, "speed": 100, "mode": "automatic" }`). -/
structure FCState where
  temperature : Int
  speed : Nat
  mode : String
deriving Repr, DecidableEq

/-- Initial value of the `state` dict. -/
def initState : FCState := ⟨-1, 100, "automatic"⟩

/-- One configured threshold entry `{ temperature, speed }`. -/
structure Threshold where
  temperature : Int
  speed : Nat
deriving Repr, DecidableEq

/-- The per-host configuration fields the control loop reads. -/
structure HostCfg where
  hysteresis : Int
  threshold : List Threshold
deriving Repr, DecidableEq

/-- Environment verdict on one raw-command subprocess invocation
(`subprocess.check_output` succeeds, raises `CalledProcessError`, or raises
`TimeoutExpired`). -/
inductive CmdOutcome
  | success
  | calledProcessError
  | timeoutExpired
deriving Repr, DecidableEq

/-- `FanControl.send_cmd`: runs the command, catching `CalledProcessError` and
`TimeoutExpired`; returns `false` on either exception, `true` on success.
The second component is the trace of raw-command args sent. -/
def send_cmd (oc : CmdOutcome) (args : String) : Bool × List String :=
  (match oc with
   | .success => true
   | .calledProcessError => false
   | .timeoutExpired => false,
   [args])

/-- First lines of `FanControl.set_fan_control`: any mode other than
`"automatic"` and `"manual"` is replaced by `"automatic"`. -/
def normalizeMode (m : String) : String :=
  if m ≠ "automatic" ∧ m ≠ "manual" then "automatic" else m

/-- `FanControl.set_fan_control`: after normalising the requested mode, send
the enable-manual raw command when switching into manual, send the
enable-automatic raw command and reset `state["speed"]` to 0 when switching
into automatic, then set `state["mode"]` unconditionally.  `oc` is the
environment's verdict on any send performed; the source discards the boolean
result of `send_cmd`, so the resulting state never depends on it. -/
def set_fan_control (oc : CmdOutcome) (m : String) (st : FCState) : FCState × List String :=
  let mode := normalizeMode m
  let manualSend : List String :=
    if mode = "manual" ∧ st.mode ≠ "manual" then
      (send_cmd oc "raw 0x30 0x30 0x01 0x00").2
    else []
  let autoStep : FCState × List String :=
    if mode = "automatic" ∧ st.mode ≠ "automatic" then
      ({ st with speed := 0 }, (send_cmd oc "raw 0x30 0x30 0x01 0x01").2)
    else (st, [])
  ({ autoStep.1 with mode := mode }, manualSend ++ autoStep.2)

/-- The Python format `"{0:#0{1}x}".format(speed, 4)`: `0x` followed by the
hexadecimal digits of `speed`, zero-padded to at least two digits. -/
def speed_hex (speed : Nat) : String :=
  let ds := Nat.toDigits 16 speed
  let ds := if ds.length < 2 then List.replicate (2 - ds.length) '0' ++ ds else ds
  "0x" ++ String.mk ds

/-- `FanControl.set_fan_speed`: if the state is not in manual mode, first
switch to manual (which sends the enable-manual command) and sleep one
second; then, if the requested speed equals `state["speed"]`, return without
sending; otherwise send the set-duty-cycle raw command and record the speed.
`ocManual` is the verdict on the send inside the mode switch, `oc` the
verdict on the set-speed send. -/
def set_fan_speed (ocManual oc : CmdOutcome) (speed : Nat) (st : FCState) :
    FCState × List String :=
  let hex := speed_hex speed
  let step : FCState × List String :=
    if st.mode ≠ "manual" then set_fan_control ocManual "manual" st else (st, [])
  let st1 := step.1
  if st1.speed = speed then (st1, step.2)
  else ({ st1 with speed := speed },
        step.2 ++ (send_cmd oc ("raw 0x30 0x30 0x02 0xff " ++ hex)).2)

/-- Hysteresis guard of the decision loop in `FanControl.execute`:
`hysteresis_ok` defaults to true; if the host's hysteresis is nonzero and
(the commanded speed exceeds this band's speed, or the mode is automatic),
the average must be at most `temperature - hysteresis`. -/
def hysteresis_ok (cfg : HostCfg) (st : FCState) (x : Int) (t : Threshold) : Bool :=
  if cfg.hysteresis ≠ 0 ∧ (t.speed < st.speed ∨ st.mode = "automatic") then
    decide (x ≤ t.temperature - cfg.hysteresis)
  else true

/-- Band-selection condition of the decision loop:
`(prev_temp < temp_average <= curr_temp and hysteresis_ok) or
 (temp_average == curr_temp)`. -/
def bandMatch (cfg : HostCfg) (st : FCState) (x : Int) (prev : Int) (t : Threshold) : Bool :=
  (decide (prev < x) && decide (x ≤ t.temperature) && hysteresis_ok cfg st x t)
    || decide (x = t.temperature)

/-- The threshold scan of `FanControl.execute`: walk the configured bands
with `prev_temp` threaded through (initially 0), returning the first band
whose `bandMatch` condition holds, or `none` when the scan falls through
(`need_to_fallback` stays true). -/
def selectBandAux (cfg : HostCfg) (st : FCState) (x : Int) :
    Int → List Threshold → Option Threshold
  | _, [] => none
  | prev, t :: ts =>
    if bandMatch cfg st x prev t then some t
    else selectBandAux cfg st x t.temperature ts

/-- Entry point of the threshold scan, with `prev_temp = 0`. -/
def selectBand (cfg : HostCfg) (st : FCState) (x : Int) : Option Threshold :=
  selectBandAux cfg st x 0 cfg.threshold

/-- A top-level actuation performed by one pass of the decision logic:
either the `self.set_fan_speed(t["speed"])` call at the matched band, or the
fallback `self.set_fan_control("automatic")` call. -/
inductive TopCall
  | speedCall (speed : Nat)
  | controlCall (mode : String)
deriving Repr, DecidableEq

/-- The Python exceptions the control loop of `FanControl.execute` can raise
and does not catch: `ValueError` from `float(...)` on an unparsable remote
sample line, `ZeroDivisionError` from `sum(temps) / len(temps)` on an empty
reading list, and `AttributeError` from the `"warn"` arm of
`FanControl.print`, which calls `log.pdwarn` — a method `Logger` does not
define. -/
inductive PyError
  | valueError
  | zeroDivisionError
  | attributeError
deriving Repr, DecidableEq

/-- `FanControl.print`: dispatches the level to a `Logger` method.  The
`"debug"`, `"info"` and `"error"` arms call `log.pdebug`, `log.pinfo` and
`log.perror`, which exist; the `"warn"` arm calls `log.pdwarn`, an attribute
`Logger` does not define, so printing at warn level raises `AttributeError`.
A level matching no arm is a no-op (Python `match` falls through). -/
def fcPrint (lvl : String) : Except PyError Unit :=
  match lvl with
  | "debug" => Except.ok ()
  | "info" => Except.ok ()
  | "warn" => Except.error PyError.attributeError
  | "error" => Except.ok ()
  | _ => Except.ok ()

/-- The actuation calls made by one pass of the decision logic in
`FanControl.execute`: `set_fan_speed` on the first matching band (the loop
breaks and clears `need_to_fallback`).  When no band matches, the source
first logs the fallback message at warn level — `self.print("warn", ...)`
raises `AttributeError` because `Logger` has no `pdwarn` — so the
`set_fan_control("automatic")` call on the next line is never reached. -/
def decisionCalls (cfg : HostCfg) (st : FCState) (x : Int) : Except PyError (List TopCall) :=
  match selectBand cfg st x with
  | some t => Except.ok [TopCall.speedCall t.speed]
  | none =>
    match fcPrint "warn" with
    | Except.ok _ => Except.ok [TopCall.controlCall "automatic"]
    | Except.error e => Except.error e

/-- Helper for `pySplit`: split a character list on a separator. -/
def splitCharAux (sep : Char) : List Char → List Char → List (List Char)
  | acc, [] => [acc.reverse]
  | acc, c :: cs =>
    if c = sep then acc.reverse :: splitCharAux sep [] cs
    else splitCharAux sep (c :: acc) cs

/-- Model of Python `str.split(sep)` for a one-character separator: splitting
the empty string yields `[""]`, exactly as in Python. -/
def pySplit (sep : Char) (s : String) : List String :=
  (splitCharAux sep [] s.data).map String.mk

/-- Whitespace characters recognised by the `str.strip` model. -/
def isSpaceChar (c : Char) : Bool :=
  c = ' ' ∨ c = '\t' ∨ c = '\n' ∨ c = '\r'

/-- Model of Python `str.strip()`: drop leading and trailing whitespace. -/
def pyStrip (s : String) : String :=
  String.mk (((s.data.dropWhile isSpaceChar).reverse.dropWhile isSpaceChar).reverse)

/-- Model of Python `str.endswith(suf)`. -/
def pyEndsWith (suf : String) (s : String) : Bool :=
  suf.data.isSuffixOf s.data

/-- Value of a list of decimal digit characters. -/
def digitsToNat (ds : List Char) : Nat :=
  ds.foldl (fun acc c => 10 * acc + (c.toNat - 48)) 0

/-- Model of the CPython builtin `float(...)` on strings, restricted to plain
signed decimal literals (optional sign, digits, optional fractional part,
surrounding whitespace ignored); every other string yields `none`, which the
callers turn into `ValueError`.  The source applies it to output lines of the
remote sample command. -/
def pyFloat (s : String) : Option ℚ :=
  let cs := (pyStrip s).data
  let signAndDigits : ℚ × List Char :=
    match cs with
    | '-' :: rest => (-1, rest)
    | '+' :: rest => (1, rest)
    | _ => (1, cs)
  let sign := signAndDigits.1
  let cs := signAndDigits.2
  let intPart := cs.takeWhile Char.isDigit
  let rest := cs.dropWhile Char.isDigit
  match rest with
  | [] => if intPart.isEmpty then none else some (sign * digitsToNat intPart)
  | '.' :: frac =>
    if frac.all Char.isDigit ∧ ¬(intPart.isEmpty ∧ frac.isEmpty) then
      some (sign * ((digitsToNat intPart : ℚ) + (digitsToNat frac : ℚ) / (10 ^ frac.length)))
    else none
  | _ => none

/-- Remote sampling branch of `FanControl.execute`:
`map(lambda n: float(n), cmd.read().strip().split('\n'))` on the remote
command's standard output; the first unparsable line raises `ValueError`.
A failed subprocess leaves an empty (or diagnostic) stdout, which fails the
same way, since `"".split('\n')` is `[""]` and `float("")` raises. -/
def remoteTemps (stdout : String) : Except PyError (List ℚ) :=
  (pySplit '\n' (pyStrip stdout)).mapM fun line =>
    match pyFloat line with
    | some v => Except.ok v
    | none => Except.error PyError.valueError

/-- One subfeature reported by the `sensors` library (name and value). -/
structure Subfeature where
  name : String
  value : ℚ
deriving Repr, DecidableEq

/-- One detected sensor chip: its identifying label (the library's chip
identifier string, compared against "coretemp") and the subfeatures of all
its features, flattened. -/
structure Chip where
  chipLabel : String
  subfeatures : List Subfeature
deriving Repr, DecidableEq

/-- Local sampling branch of `FanControl.execute`: keep the chips labelled
"coretemp" and collect the values of their subfeatures whose name ends in
`_input`.  When no coretemp chip is detected the result is the empty list —
the source performs no emptiness check. -/
def localTemps (chips : List Chip) : List ℚ :=
  ((chips.filter fun c => c.chipLabel = "coretemp").map fun c =>
    (c.subfeatures.filter fun s => pyEndsWith "_input" s.name).map fun s => s.value).flatten

/-- The environment observed by one sampling step: the detected chips for a
local host, or the remote command's standard output for a remote host. -/
inductive SampleInput
  | localChips (chips : List Chip)
  | remoteOut (stdout : String)
deriving Repr, DecidableEq

/-- Temperature acquisition of one iteration: the local branch cannot raise,
the remote branch raises `ValueError` on an unparsable line. -/
def sampleTemps : SampleInput → Except PyError (List ℚ)
  | .localChips chips => .ok (localTemps chips)
  | .remoteOut stdout => remoteTemps stdout

/-- Model of the Python builtin `round` on exact rationals: nearest integer,
ties to the even integer. -/
def pyRound (q : ℚ) : Int :=
  let f := ⌊q⌋
  let r := q - f
  if r < 1 / 2 then f
  else if r > 1 / 2 then f + 1
  else if f % 2 = 0 then f else f + 1

/-- `round(sum(temps) / len(temps))`: raises `ZeroDivisionError` when the
reading list is empty, exactly as the Python division does. -/
def tempAverage (temps : List ℚ) : Except PyError Int :=
  if temps.length = 0 then Except.error PyError.zeroDivisionError
  else Except.ok (pyRound (temps.sum / (temps.length : ℚ)))

/-- One iteration of the `while self.run` loop of `FanControl.execute`:
sample, average, scan the thresholds, and actuate — `set_fan_speed` on the
matched band; when no band matches, the fallback branch first prints the
warn-level message (raising `AttributeError`, since `Logger` has no
`pdwarn`), so the `set_fan_control("automatic")` on the following source
line never runs.  An `Except.error` models an uncaught Python exception
escaping the iteration.  `oc1` is the environment verdict for a mode-change
send, `oc2` for a set-speed send. -/
def loopIter (cfg : HostCfg) (oc1 oc2 : CmdOutcome) (st : FCState) (inp : SampleInput) :
    Except PyError (FCState × List String) := do
  let temps ← sampleTemps inp
  let x ← tempAverage temps
  match selectBand cfg st x with
  | some t => pure (set_fan_speed oc1 oc2 t.speed st)
  | none => do
    let _ ← fcPrint "warn"
    pure (set_fan_control oc1 "automatic" st)

/-- The control loop run over a finite schedule of sampling environments (one
per iteration while `self.run` holds): an exception in any iteration aborts
the whole loop — there is no handler in `FanControl.execute`, so the
remaining iterations never run and the thread terminates. -/
def executeLoop (cfg : HostCfg) (oc1 oc2 : CmdOutcome) (st : FCState) :
    List SampleInput → Except PyError (FCState × List String)
  | [] => .ok (st, [])
  | inp :: rest => do
    let r1 ← loopIter cfg oc1 oc2 st inp
    let r2 ← executeLoop cfg oc1 oc2 r1.1 rest
    pure (r2.1, r1.2 ++ r2.2)

/-- Attributes genuinely stored per instance by `FanControl.__init__`. -/
structure InstanceAttrs where
  is_remote_host : Bool
deriving Repr, DecidableEq

/-- The two class attributes of `FanControl` that instances mutate in place
and never rebind: `cmd = ["ipmitool"]` (a single list object — `self.cmd +=`
extends that list) and `state = {...}` (a single dict object — all item
assignments hit it).  Because every instance resolves `self.cmd` and
`self.state` to these same objects, one value of each suffices to model any
number of coexisting instances. -/
structure SharedWorld where
  state : FCState
  cmd : List String
deriving Repr, DecidableEq

/-- The shared class attributes at module load. -/
def initWorld : SharedWorld := ⟨initState, ["ipmitool"]⟩

/-- `FanControl.__init__`: a remote host appends its transport flags and
credentials to the (shared, class-level) `cmd` list via `self.cmd +=`; a
local host leaves it alone.  Returns the updated shared world and the new
instance's own attributes. -/
def fanControlInit (w : SharedWorld) (hostType : String)
    (address user pass : String) : SharedWorld × InstanceAttrs :=
  if hostType = "remote" then
    ({ w with cmd := w.cmd ++ ["-I", "lanplus", "-H", address, "-U", user, "-P", pass] },
     ⟨true⟩)
  else (w, ⟨false⟩)

/-- `set_fan_speed` invoked through any one instance: it mutates the single
shared `state` dict, so the change is visible through every instance. -/
def worldSetFanSpeed (oc1 oc2 : CmdOutcome) (speed : Nat) (w : SharedWorld) :
    SharedWorld × List String :=
  let r := set_fan_speed oc1 oc2 speed w.state
  ({ w with state := r.1 }, r.2)

/-- `FanControl.stop`: log, set `self.run = False`, and call
`set_fan_control("automatic")`.  Returns the new run flag, the new control
state and the commands sent. -/
def stop (oc : CmdOutcome) (runFlag : Bool) (st : FCState) : Bool × FCState × List String :=
  let _ := runFlag
  let r := set_fan_control oc "automatic" st
  (false, r.1, r.2)

/-- A small host configuration used for concrete evaluations. -/
def demoCfg : HostCfg := ⟨0, [⟨40, 20⟩]⟩

/-- Host configuration with nonzero hysteresis for the hysteresis claims. -/
def c4cfg : HostCfg := ⟨5, [⟨40, 20⟩, ⟨80, 100⟩]⟩

/-- A control state running at full speed in manual mode. -/
def c4st : FCState := ⟨-1, 100, "manual"⟩

/-- A detected chip list holding no coretemp chip (for example a machine
whose only sensor chip is an NVMe drive). -/
def c8chips : List Chip := [⟨"nvme", [⟨"temp1_input", 35⟩]⟩]

theorem selectBandAux_none_of_gt (cfg : HostCfg) (st : FCState) (x : Int) :
    ∀ ts : List Threshold, (∀ t ∈ ts, t.temperature < x) → ∀ prev : Int,
      selectBandAux cfg st x prev ts = none := by
  intro ts
  induction ts with
  | nil => intro _ _; rfl
  | cons t ts ih =>
    intro hgt prev
    have ht : t.temperature < x := hgt t (List.mem_cons_self t ts)
    have h1 : ¬(x ≤ t.temperature) := by omega
    have h2 : ¬(x = t.temperature) := by omega
    have hb : bandMatch cfg st x prev t = false := by
      unfold bandMatch
      simp [h1, h2]
    simp only [selectBandAux, hb, Bool.false_eq_true, if_false]
    exact ih (fun u hu => hgt u (List.mem_cons_of_mem t hu)) t.temperature

theorem selectBandAux_hysteresis (cfg : HostCfg) (st : FCState) (x : Int) (t : Threshold)
    (hh : cfg.hysteresis ≠ 0)
    (hcond : t.speed < st.speed ∨ st.mode = "automatic")
    (hne : x ≠ t.temperature) :
    ∀ (ts : List Threshold) (prev : Int),
      selectBandAux cfg st x prev ts = some t →
      x ≤ t.temperature - cfg.hysteresis := by
  intro ts
  induction ts with
  | nil =>
    intro prev h
    simp [selectBandAux] at h
  | cons u ts ih =>
    intro prev h
    by_cases hb : bandMatch cfg st x prev u
    · have hut : u = t := by
        simpa [selectBandAux, hb] using h
      subst hut
      unfold bandMatch at hb
      rw [Bool.or_eq_true, Bool.and_eq_true, Bool.and_eq_true] at hb
      rcases hb with ⟨⟨_, _⟩, hH⟩ | hE
      · unfold hysteresis_ok at hH
        rw [if_pos ⟨hh, hcond⟩] at hH
        exact of_decide_eq_true hH
      · exact absurd (of_decide_eq_true hE) hne
    · have h' : selectBandAux cfg st x u.temperature ts = some t := by
        simpa [selectBandAux, hb] using h
      exact ih _ h'

theorem set_fan_control_auto_spec (oc : CmdOutcome) (st : FCState)
    (h : st.mode ≠ "automatic") :
    set_fan_control oc "automatic" st
      = (⟨st.temperature, 0, "automatic"⟩, ["raw 0x30 0x30 0x01 0x01"]) := by
  unfold set_fan_control normalizeMode send_cmd
  simp [h]

/-- C1: evaluation at the failing input.  When a band matches, the pass
performs exactly one `set_fan_speed` call (first conjunct, average 35 on the
40-degree band).  But when no band matches (average 95), the fallback branch
raises `AttributeError` at the warn-level print — `Logger` has no `pdwarn` —
before `set_fan_control("automatic")` is reached, so neither actuation
happens and the claim's "never neither" fails. -/
theorem C1_fallback_crash_breaks_dichotomy :
    decisionCalls demoCfg initState 35 = Except.ok [TopCall.speedCall 20] ∧
    decisionCalls demoCfg initState 95 = Except.error PyError.attributeError :=
  ⟨rfl, rfl⟩

/-- C7: for every average temperature strictly above the highest configured
threshold temperature, the scan falls through, but the iteration then dies
with `AttributeError` at the warn-level fallback message (`Logger` has no
`pdwarn`): `set_fan_control("automatic")` is never invoked, contrary to the
claim. -/
theorem C7_above_top_crashes_before_fallback (cfg : HostCfg) (st : FCState) (x m : Int)
    (hmax : (cfg.threshold.map fun t => t.temperature).maximum = some m)
    (hlt : m < x) :
    selectBand cfg st x = none ∧
    decisionCalls cfg st x = Except.error PyError.attributeError := by
  have hnone : selectBand cfg st x = none := by
    unfold selectBand
    apply selectBandAux_none_of_gt
    intro t ht
    have hmem : t.temperature ∈ cfg.threshold.map fun t => t.temperature :=
      List.mem_map_of_mem _ ht
    have hle : t.temperature ≤ m := List.le_maximum_of_mem hmem hmax
    omega
  refine ⟨hnone, ?_⟩
  unfold decisionCalls
  rw [hnone]
  rfl

theorem C7_above_top_crashes_before_fallback_witness :
    selectBand c4cfg c4st 95 = none ∧
    decisionCalls c4cfg c4st 95 = Except.error PyError.attributeError :=
  C7_above_top_crashes_before_fallback c4cfg c4st 95 80 (by decide) (by decide)

/-- C4 counterexample: with hysteresis 5 and commanded speed 100 exceeding
the band speed 20, the claim requires the band (40, 20) to be selected only
when the average drops to 35, yet an average of exactly 40 selects it — the
equality branch of the match condition bypasses the hysteresis guard. -/
theorem C4_hysteresis_cex :
    selectBand c4cfg c4st 40 = some ⟨40, 20⟩ ∧
    c4cfg.hysteresis ≠ 0 ∧ 20 < c4st.speed ∧ ¬((40 : Int) ≤ 40 - c4cfg.hysteresis) := by
  exact ⟨by rfl, by decide, by decide, by decide⟩

/-- C4 (amended): with nonzero hysteresis, whenever the commanded speed
exceeds a band's speed or the mode is automatic, the decision logic selects
that band at an average different from its threshold temperature only if the
average is at most `temperature - hysteresis`; an average exactly equal to
the threshold temperature escapes the hysteresis guard through the equality
branch. -/
theorem C4_hysteresis_reselect (cfg : HostCfg) (st : FCState) (x : Int) (t : Threshold)
    (hh : cfg.hysteresis ≠ 0)
    (hcond : t.speed < st.speed ∨ st.mode = "automatic")
    (hne : x ≠ t.temperature)
    (hsel : selectBand cfg st x = some t) :
    x ≤ t.temperature - cfg.hysteresis :=
  selectBandAux_hysteresis cfg st x t hh hcond hne cfg.threshold 0 hsel

theorem C4_hysteresis_reselect_witness : (30 : Int) ≤ 40 - 5 :=
  C4_hysteresis_reselect ⟨5, [⟨40, 20⟩]⟩ ⟨-1, 100, "manual"⟩ 30 ⟨40, 20⟩
    (by decide) (Or.inl (by decide)) (by decide) (by rfl)

/-- C5 counterexample: calling `set_fan_speed` with the currently commanded
speed from a state in automatic mode first switches to manual, so one raw
command is issued and the state changes. -/
theorem C5_idempotence_cex :
    (set_fan_speed CmdOutcome.success CmdOutcome.success 100 initState).2 ≠ [] ∧
    (set_fan_speed CmdOutcome.success CmdOutcome.success 100 initState).1 ≠ initState := by
  exact ⟨by decide, by decide⟩

/-- C5 (amended): for every control state already in manual mode, calling
`set_fan_speed` with a percentage equal to the currently commanded speed
issues zero raw commands and leaves the control state unchanged. -/
theorem C5_idempotent_in_manual (oc1 oc2 : CmdOutcome) (st : FCState) (p : Nat)
    (hm : st.mode = "manual") (hp : st.speed = p) :
    set_fan_speed oc1 oc2 p st = (st, []) := by
  unfold set_fan_speed
  simp [hm, hp]

theorem C5_idempotent_in_manual_witness :
    set_fan_speed CmdOutcome.success CmdOutcome.success 50 ⟨-1, 50, "manual"⟩
      = (⟨-1, 50, "manual"⟩, []) :=
  C5_idempotent_in_manual CmdOutcome.success CmdOutcome.success ⟨-1, 50, "manual"⟩ 50 rfl rfl

/-- C6: for every control state, any prior run flag and any command outcome,
`stop()` clears the running flag and leaves the mode automatic — regardless
of the mode at the time of the call and of whether the BMC command succeeds,
fails or times out. -/
theorem C6_stop_forces_automatic (oc : CmdOutcome) (runFlag : Bool) (st : FCState) :
    (stop oc runFlag st).1 = false ∧ (stop oc runFlag st).2.1.mode = "automatic" :=
  ⟨rfl, rfl⟩

/-- C9 counterexample: when the enable-automatic command fails
(`CalledProcessError`, so `send_cmd` reports `false`), the commanded speed is
still reset to 0 — the reset is not conditional on command success, because
the source ignores the result of `send_cmd`. -/
theorem C9_reset_despite_failure_cex :
    (send_cmd CmdOutcome.calledProcessError "raw 0x30 0x30 0x01 0x01").1 = false ∧
    (set_fan_control CmdOutcome.calledProcessError "automatic" ⟨-1, 100, "manual"⟩).1.speed
      = 0 :=
  ⟨rfl, rfl⟩

/-- C9 (amended): `set_fan_control("automatic")` from a mode other than
automatic sends the enable-automatic raw command and — regardless of the
command outcome, success, failure or timeout — resets the commanded speed to
0 and sets the mode to automatic; the failed or timed-out command is caught
inside `send_cmd` and never aborts the controller. -/
theorem C9_set_automatic_optimistic (oc : CmdOutcome) (st : FCState)
    (h : st.mode ≠ "automatic") :
    set_fan_control oc "automatic" st
      = (⟨st.temperature, 0, "automatic"⟩, ["raw 0x30 0x30 0x01 0x01"]) :=
  set_fan_control_auto_spec oc st h

theorem C9_set_automatic_optimistic_witness :
    set_fan_control CmdOutcome.timeoutExpired "automatic" ⟨-1, 100, "manual"⟩
      = (⟨-1, 0, "automatic"⟩, ["raw 0x30 0x30 0x01 0x01"]) :=
  C9_set_automatic_optimistic CmdOutcome.timeoutExpired ⟨-1, 100, "manual"⟩ (by decide)

/-- C10: for every mode string other than "automatic" and "manual",
`set_fan_control` behaves exactly like `set_fan_control("automatic")`: the
resulting mode is automatic, and the enable-automatic command is sent with
the speed reset to 0 if and only if the mode was not already automatic. -/
theorem C10_unknown_mode_is_automatic (oc : CmdOutcome) (m : String) (st : FCState)
    (h1 : m ≠ "automatic") (h2 : m ≠ "manual") :
    set_fan_control oc m st = set_fan_control oc "automatic" st ∧
    (set_fan_control oc m st).1.mode = "automatic" ∧
    ((set_fan_control oc m st).2 = ["raw 0x30 0x30 0x01 0x01"] ∧
        (set_fan_control oc m st).1.speed = 0
      ↔ st.mode ≠ "automatic") := by
  have hnorm : normalizeMode m = "automatic" := by
    unfold normalizeMode
    rw [if_pos ⟨h1, h2⟩]
  have heq : set_fan_control oc m st = set_fan_control oc "automatic" st := by
    unfold set_fan_control
    rw [hnorm]
    rw [show normalizeMode "automatic" = "automatic" from rfl]
  refine ⟨heq, ?_, ?_⟩
  · rw [heq]
    rfl
  · rw [heq]
    by_cases hst : st.mode = "automatic"
    · simp [set_fan_control, normalizeMode, hst]
    · simp [set_fan_control_auto_spec oc st hst, hst]

theorem C10_unknown_mode_is_automatic_witness :
    set_fan_control CmdOutcome.success "foo" initState
      = set_fan_control CmdOutcome.success "automatic" initState :=
  (C10_unknown_mode_is_automatic CmdOutcome.success "foo" initState
    (by decide) (by decide)).1

/-- C2: evaluation at the failing input.  When a remote sample line fails to
parse (here the diagnostic output of a failed command), the `ValueError`
escapes: the whole loop run aborts with the exception, whatever sampling
environments the later iterations would have seen — the loop does not
continue at the next interval, the iteration error is not recovered. -/
theorem C2_sample_failure_aborts_loop (oc1 oc2 : CmdOutcome) (rest : List SampleInput) :
    executeLoop demoCfg oc1 oc2 initState
        (SampleInput.remoteOut "Error: connection failed" :: rest)
      = Except.error PyError.valueError := by
  have h : loopIter demoCfg oc1 oc2 initState (SampleInput.remoteOut "Error: connection failed")
      = Except.error PyError.valueError := by rfl
  simp only [executeLoop, h]
  rfl

/-- C8: evaluation at the failing input.  On a local host whose detected
chips hold no coretemp chip, the reading list is empty and the average
computation raises `ZeroDivisionError` — the empty result reaches the
division instead of being treated as an error beforehand, and the exception
aborts the loop. -/
theorem C8_empty_readings_divide_by_zero (oc1 oc2 : CmdOutcome) (rest : List SampleInput) :
    localTemps c8chips = [] ∧
    executeLoop demoCfg oc1 oc2 initState (SampleInput.localChips c8chips :: rest)
      = Except.error PyError.zeroDivisionError := by
  constructor
  · rfl
  · have h : loopIter demoCfg oc1 oc2 initState (SampleInput.localChips c8chips)
        = Except.error PyError.zeroDivisionError := by rfl
    simp only [executeLoop, h]
    rfl

/-- C3: evaluation demonstrating the shared class attributes.  `state` and
`cmd` are class-level objects mutated in place, so a `set_fan_speed` issued
through one instance changes the speed every instance observes, and
constructing a remote instance extends the command prefix every instance
observes. -/
theorem C3_class_attributes_are_shared :
    ((worldSetFanSpeed CmdOutcome.success CmdOutcome.success 50 initWorld).1.state.speed = 50
      ∧ initWorld.state.speed = 100)
    ∧ (fanControlInit initWorld "remote" "192.168.0.120" "root" "calvin").1.cmd
        = ["ipmitool", "-I", "lanplus", "-H", "192.168.0.120", "-U", "root", "-P", "calvin"]
    ∧ initWorld.cmd = ["ipmitool"] :=
  ⟨⟨rfl, rfl⟩, rfl, rfl⟩
